import Mathlib

/-!
Verification development for the stock-strategy backtester repository.

The frontend (TypeScript, `frontend/src/lib/api.ts`,
`frontend/src/components/BacktestForm.tsx`, `EquityChart.tsx`,
`ResultsDisplay.tsx`) is embedded shallowly below: record types become
Lean structures, JavaScript runtime values become the `JSVal` inductive,
and the relevant component logic (`safeFormat`, the SMA dataset
construction, the `ApiService` error handling) becomes Lean functions.

The backend backtest core (`simulate` / `summarize`) is not present in
the repository sources (only its Docker entry script is); it is modelled
from the specification where a claim needs it, with each such definition
marked `Modelled from the spec:` in its doc comment.

JavaScript numbers are modelled as exact rationals (`ℚ`), with a separate
`JSVal.nan` constructor for `NaN`; none of the claims settled here depend
on IEEE-754 rounding.
-/

/-- Model of a JavaScript runtime value (the JSON-like fragment the
frontend manipulates): numbers, `NaN`, strings, booleans, `null`,
`undefined`, objects (ordered field lists) and arrays. -/
inductive JSVal where
  | num (q : ℚ)
  | nan
  | str (s : String)
  | bool (b : Bool)
  | null
  | undef
  | obj (fields : List (String × JSVal))
  | arr (elems : List JSVal)

/-- Property access `acc?.[key]` as used in `safeFormat`
(`ResultsDisplay.tsx`): on an object, look the key up (a missing key
yields `undefined`); optional chaining turns access on `null`/`undefined`
into `undefined`; access on any other non-object value is likewise
modelled as `undefined` (no claim accesses builtin properties of
primitives). -/
def JSVal.getProp : JSVal → String → JSVal
  | JSVal.obj fields, key =>
      match fields.lookup key with
      | some v => v
      | none => JSVal.undef
  | _, _ => JSVal.undef

/-- The field names of an object value, in declaration order (an empty
list for non-objects). -/
def JSVal.keys : JSVal → List String
  | JSVal.obj fields => fields.map Prod.fst
  | _ => []

/-- Stand-in for JavaScript `Number.prototype.toFixed`: renders the
number scaled to the requested number of decimals. Its exact output
string is irrelevant to every claim below; only the fact that the
non-number branch of `safeFormat` is taken matters. -/
def toFixedStr (q : ℚ) (decimals : Nat) : String :=
  toString (round (q * (10 : ℚ) ^ decimals))

/-- Helper for `splitDot`: walk the character list, cutting a segment at
every dot. -/
def splitDotAux : List Char → List Char → List String
  | [], acc => [String.mk acc.reverse]
  | c :: rest, acc =>
      if c = '.' then String.mk acc.reverse :: splitDotAux rest []
      else splitDotAux rest (c :: acc)

/-- JavaScript `path.split('.')`: the segments of the string between
dots (structurally recursive so that it evaluates inside proofs). -/
def splitDot (s : String) : List String :=
  splitDotAux s.toList []

/-- `safeFormat` from `ResultsDisplay.tsx` (src/unnamed/part_003,
lines 40-45): split the path on `.`, resolve it with optional chaining,
and render with `toFixed` only when the resolved value is a number and
not `NaN`; otherwise return the string N/A. -/
def safeFormat (o : JSVal) (path : String) (decimals : Nat) : String :=
  let value := (splitDot path).foldl (fun acc key => acc.getProp key) o
  match value with
  | JSVal.num q => toFixedStr q decimals
  | _ => "N/A"

/-- The `summary` record of `BacktestResponse` (`api.ts`, lines 64-75):
its exact fields, in source order. All ten are numbers. -/
structure BacktestSummary where
  sharpe_ratio : ℚ
  max_drawdown : ℚ
  annual_return : ℚ
  volatility : ℚ
  total_trades : ℚ
  winning_trades : ℚ
  losing_trades : ℚ
  avg_trade_duration : ℚ
  max_consecutive_wins : ℚ
  max_consecutive_losses : ℚ

/-- An element of `BacktestResponse.equity_curve` (`api.ts`, lines 56-63,
identical to `EquityChartProps.equityCurve` in `EquityChart.tsx`, lines
29-36): `date`, `equity`, `cash`, `position_value`, `close_price`, and an
optional `sma`. -/
structure EquityPoint where
  date : String
  equity : ℚ
  cash : ℚ
  position_value : ℚ
  close_price : ℚ
  sma : Option ℚ

/-- The `BacktestResponse` record (`api.ts`, lines 52-79): its exact
top-level fields, in source order. -/
structure BacktestResponse where
  total_return : ℚ
  win_rate : ℚ
  num_trades : ℚ
  equity_curve : List EquityPoint
  summary : BacktestSummary
  ticker : String
  start_date : String
  end_date : String

/-- A `BacktestSummary` as the JavaScript object it denotes: exactly the
ten fields of the inline type at `api.ts` lines 64-75. -/
def BacktestSummary.toJS : BacktestSummary → JSVal
  | ⟨sr, md, ar, vo, tt, wt, lt, ad, cw, cl⟩ =>
      JSVal.obj
        [("sharpe_ratio", JSVal.num sr),
         ("max_drawdown", JSVal.num md),
         ("annual_return", JSVal.num ar),
         ("volatility", JSVal.num vo),
         ("total_trades", JSVal.num tt),
         ("winning_trades", JSVal.num wt),
         ("losing_trades", JSVal.num lt),
         ("avg_trade_duration", JSVal.num ad),
         ("max_consecutive_wins", JSVal.num cw),
         ("max_consecutive_losses", JSVal.num cl)]

/-- An `EquityPoint` as the JavaScript object it denotes; the optional
`sma` field is present exactly when the value is defined. -/
def EquityPoint.toJS : EquityPoint → JSVal
  | ⟨d, eq, c, pv, cp, sm⟩ =>
      JSVal.obj
        ([("date", JSVal.str d),
          ("equity", JSVal.num eq),
          ("cash", JSVal.num c),
          ("position_value", JSVal.num pv),
          ("close_price", JSVal.num cp)] ++
         (match sm with
          | some q => [("sma", JSVal.num q)]
          | none => []))

/-- A `BacktestResponse` as the JavaScript object it denotes: exactly the
eight top-level fields of `api.ts` lines 52-79. -/
def BacktestResponse.toJS : BacktestResponse → JSVal
  | ⟨tr, wr, nt, ec, sm, tk, sd, ed⟩ =>
      JSVal.obj
        [("total_return", JSVal.num tr),
         ("win_rate", JSVal.num wr),
         ("num_trades", JSVal.num nt),
         ("equity_curve", JSVal.arr (ec.map EquityPoint.toJS)),
         ("summary", sm.toJS),
         ("ticker", JSVal.str tk),
         ("start_date", JSVal.str sd),
         ("end_date", JSVal.str ed)]

/-- The field names of the code's `summary` record, in source order
(`api.ts`, lines 64-75). -/
def backtestSummaryFields : List String :=
  ["sharpe_ratio", "max_drawdown", "annual_return", "volatility",
   "total_trades", "winning_trades", "losing_trades",
   "avg_trade_duration", "max_consecutive_wins", "max_consecutive_losses"]

/-- The field names of the code's `BacktestResponse` record, in source
order (`api.ts`, lines 52-79). -/
def backtestResponseFields : List String :=
  ["total_return", "win_rate", "num_trades", "equity_curve", "summary",
   "ticker", "start_date", "end_date"]

/-- The field names of the code's equity-curve element, in source order
(`api.ts`, lines 56-63); `sma` is optional. -/
def equityPointBaseFields : List String :=
  ["date", "equity", "cash", "position_value", "close_price"]

/-- `SummaryMetrics` field names exactly as the specification words them
(spec section 3, data model). Kept only to be compared with the record the
code actually uses. -/
def specSummaryMetricsFields : List String :=
  ["total_return_pct", "win_rate_pct", "sharpe_ratio", "max_drawdown_pct",
   "annual_return_pct", "volatility_pct", "total_trades", "winning_trades",
   "losing_trades", "avg_trade_duration_days", "max_consecutive_wins",
   "max_consecutive_losses"]

/-- `AccountState` field names exactly as the specification words them
(spec section 3, data model). Kept only to be compared with the record the
code actually uses. -/
def specAccountStateFields : List String :=
  ["date", "cash", "position_size", "equity", "close_price", "sma",
   "average_volume"]

/-- A concrete all-zero summary record, used as the explicit object at
which the specification's field list is refuted. -/
def sampleSummary : BacktestSummary :=
  ⟨0, 0, 0, 0, 0, 0, 0, 0, 0, 0⟩

/-- A concrete equity-curve element (with `sma` present, so its key list
is as large as the type ever allows), used as the explicit object at
which the specification's field list is refuted. -/
def samplePoint : EquityPoint :=
  ⟨"2023-01-05", 10000, 10000, 0, 100, some 100⟩

/-- The values offered by the If Condition select of the strategy form
(`BacktestForm.tsx`, lines 172-182): four price/SMA comparisons and
nothing else. -/
def ifConditionOptions : List String :=
  ["price > sma", "price < sma", "price >= sma", "price <= sma"]

/-- The values offered by the Then Action select (`BacktestForm.tsx`,
lines 190-200), in source order. -/
def thenActionOptions : List String :=
  ["buy", "sell", "hold", "exit"]

/-- The values offered by the Else Action select (`BacktestForm.tsx`,
lines 206-216), in source order. -/
def elseActionOptions : List String :=
  ["hold", "buy", "sell", "exit"]

/-- The condition values exactly as the specification's Rule data model
words them (spec section 3), spelled with the spaces the form uses. Kept
only to be compared with the options the form actually offers. -/
def specConditionValues : List String :=
  ["price > sma", "price < sma", "price >= sma", "price <= sma",
   "volume > avg_volume"]

/-- The action values of the specification's Rule data model
(spec section 3). -/
def specActionValues : List String :=
  ["buy", "sell", "hold", "exit"]

/-- The constraint attributes of an HTML number input. -/
structure NumberInputAttrs where
  min : ℤ
  max : ℤ

/-- The SMA Period input of the strategy form (`BacktestForm.tsx`, lines
150-158): `min="1" max="200"`. -/
def smaPeriodInput : NumberInputAttrs :=
  ⟨1, 200⟩

/-- HTML constraint validation for a required number input: a submitted
integer is accepted exactly when it lies between the `min` and `max`
attributes (out-of-range values trigger rangeUnderflow/rangeOverflow and
block form submission). -/
def NumberInputAttrs.accepts (a : NumberInputAttrs) (n : ℤ) : Bool :=
  decide (a.min ≤ n) && decide (n ≤ a.max)

/-- Looking a key up in an object none of whose stored values is
`undefined` yields a non-`undefined` result exactly when the key is among
the object's field names. -/
theorem JSVal.getProp_obj_ne_undef (fields : List (String × JSVal)) (key : String)
    (hv : ∀ p ∈ fields, p.2 ≠ JSVal.undef) :
    (JSVal.obj fields).getProp key ≠ JSVal.undef ↔ key ∈ fields.map Prod.fst := by
  induction fields with
  | nil => simp [JSVal.getProp]
  | cons hd tl ih =>
      have hhd : hd.2 ≠ JSVal.undef := hv hd (List.mem_cons_self hd tl)
      have htl : ∀ p ∈ tl, p.2 ≠ JSVal.undef :=
        fun p hp => hv p (List.mem_cons_of_mem hd hp)
      by_cases hk : key = hd.1
      · subst hk
        simp [JSVal.getProp, List.lookup, hhd]
      · have hbeq : (key == hd.1) = false := beq_eq_false_iff_ne.mpr hk
        have := ih htl
        simp only [JSVal.getProp, List.lookup, hbeq] at this ⊢
        simp [List.mem_cons, hk, this]

/-- A summary record never denotes `undefined`. -/
theorem BacktestSummary.toJS_ne_undef (s : BacktestSummary) :
    s.toJS ≠ JSVal.undef := by
  obtain ⟨sr, md, ar, vo, tt, wt, lt, ad, cw, cl⟩ := s
  simp [BacktestSummary.toJS]

/-- Claim C1, counterexample: the spec's `SummaryMetrics` field list does
not match the code's `summary` record. None of the spec's `_pct`/`_days`
names exist on a concrete summary object, while the unsuffixed names
(`max_drawdown`, `annual_return`, `volatility`, `avg_trade_duration`) do,
and `total_return_pct` / `win_rate_pct` have no counterpart at all. -/
theorem summary_spec_fields_refuted :
    ("total_return_pct" ∈ specSummaryMetricsFields ∧
     "total_return_pct" ∉ JSVal.keys sampleSummary.toJS) ∧
    ("win_rate_pct" ∈ specSummaryMetricsFields ∧
     "win_rate_pct" ∉ JSVal.keys sampleSummary.toJS) ∧
    ("max_drawdown_pct" ∉ JSVal.keys sampleSummary.toJS) ∧
    ("annual_return_pct" ∉ JSVal.keys sampleSummary.toJS) ∧
    ("volatility_pct" ∉ JSVal.keys sampleSummary.toJS) ∧
    ("avg_trade_duration_days" ∉ JSVal.keys sampleSummary.toJS) ∧
    ("max_drawdown" ∈ JSVal.keys sampleSummary.toJS) ∧
    ("annual_return" ∈ JSVal.keys sampleSummary.toJS) ∧
    ("volatility" ∈ JSVal.keys sampleSummary.toJS) ∧
    ("avg_trade_duration" ∈ JSVal.keys sampleSummary.toJS) := by
  decide

/-- Claim C1, amended: every `summary` record of a backtest response
contains exactly the fields `sharpe_ratio`, `max_drawdown`,
`annual_return`, `volatility`, `total_trades`, `winning_trades`,
`losing_trades`, `avg_trade_duration`, `max_consecutive_wins`,
`max_consecutive_losses`: property access on the summary object is
defined for precisely those names. -/
theorem summary_fields_are_exactly_code_fields (s : BacktestSummary) (name : String) :
    (JSVal.getProp s.toJS name ≠ JSVal.undef) ↔ name ∈ backtestSummaryFields := by
  obtain ⟨sr, md, ar, vo, tt, wt, lt, ad, cw, cl⟩ := s
  rw [BacktestSummary.toJS, JSVal.getProp_obj_ne_undef]
  · simp [backtestSummaryFields]
  · intro p hp
    simp only [List.mem_cons, List.not_mem_nil, or_false] at hp
    rcases hp with h | h | h | h | h | h | h | h | h | h <;> subst h <;> simp

/-- Claim C2: a backtest response is a record with exactly the top-level
fields `total_return`, `win_rate`, `num_trades`, `equity_curve` (an array
of equity-curve records), `summary` (the summary record), `ticker`,
`start_date`, `end_date`: its key list is that list and property access is
defined for precisely those names. -/
theorem backtestResponse_fields_exact (r : BacktestResponse) (name : String) :
    JSVal.keys r.toJS = backtestResponseFields ∧
    ((JSVal.getProp r.toJS name ≠ JSVal.undef) ↔ name ∈ backtestResponseFields) := by
  obtain ⟨tr, wr, nt, ec, sm, tk, sd, ed⟩ := r
  constructor
  · simp [BacktestResponse.toJS, JSVal.keys, backtestResponseFields]
  · rw [BacktestResponse.toJS, JSVal.getProp_obj_ne_undef]
    · simp [backtestResponseFields]
    · intro p hp
      simp only [List.mem_cons, List.not_mem_nil, or_false] at hp
      rcases hp with h | h | h | h | h | h | h | h <;> subst h <;>
        simp [BacktestSummary.toJS_ne_undef]

/-- Claim C3, counterexample: an equity-curve element has no
`position_size` field and no `average_volume` field (both claimed by the
spec's `AccountState`); it instead carries `position_value`, which the
spec's field list lacks. -/
theorem accountState_spec_fields_refuted :
    ("position_size" ∈ specAccountStateFields ∧
     "position_size" ∉ JSVal.keys samplePoint.toJS) ∧
    ("average_volume" ∈ specAccountStateFields ∧
     "average_volume" ∉ JSVal.keys samplePoint.toJS) ∧
    ("position_value" ∈ JSVal.keys samplePoint.toJS ∧
     "position_value" ∉ specAccountStateFields) := by
  decide

/-- Claim C3, amended: every element of the equity curve carries exactly
the fields `date`, `equity`, `cash`, `position_value`, `close_price`,
plus `sma` exactly when the optional SMA value is present; there is no
signed `position_size` field and no `average_volume` field. -/
theorem equityPoint_fields_exact (p : EquityPoint) :
    JSVal.keys p.toJS =
      equityPointBaseFields ++
        (match p.sma with
         | some _ => ["sma"]
         | none => []) := by
  obtain ⟨d, e, c, pv, cp, sm⟩ := p
  cases sm <;> simp [EquityPoint.toJS, JSVal.keys, equityPointBaseFields]

/-- Claim C4, counterexample: the spec's Rule condition set includes the
volume condition, but the form's If Condition select offers no such
option (under either spelling), so that combination is not constructible
through the interface. -/
theorem volume_condition_not_offered :
    ("volume > avg_volume" ∈ specConditionValues) ∧
    ("volume > avg_volume" ∉ ifConditionOptions) ∧
    ("volume>avg_volume" ∉ ifConditionOptions) := by
  decide

/-- Claim C4, amended: the form's condition select ranges exactly over
the four price/SMA comparisons (the spec's condition set minus the volume
condition), while the Then Action and Else Action selects each range
exactly over buy, sell, hold, exit. -/
theorem rule_options_exact :
    thenActionOptions.Perm specActionValues ∧
    elseActionOptions.Perm specActionValues ∧
    ifConditionOptions.Perm
      (specConditionValues.filter (fun c => c != "volume > avg_volume")) := by
  decide

/-- Claim C7, counterexample: 201 is a positive integer greater than or
equal to 1, yet the SMA Period input rejects it — the interface caps
`sma_period` at 200. -/
theorem sma_period_201_rejected :
    (1 ≤ (201 : ℤ)) ∧ smaPeriodInput.accepts 201 = false := by
  decide

/-- Claim C7, amended: the SMA Period input accepts an integer exactly
when it lies between 1 and 200 inclusive; positivity is not the only
constraint, there is an upper limit of 200. -/
theorem sma_period_accepted_iff_in_range (n : ℤ) :
    smaPeriodInput.accepts n = true ↔ 1 ≤ n ∧ n ≤ 200 := by
  simp [NumberInputAttrs.accepts, smaPeriodInput]

/-- Claim C8: for every value of the `BacktestResponse` type, the
results page's Win Rate card shows N/A, because
`safeFormat(results, "summary.win_rate")` resolves `win_rate` on the
summary record — which has no such field — to `undefined`, which is not a
number. -/
theorem win_rate_card_shows_NA (r : BacktestResponse) :
    safeFormat r.toJS "summary.win_rate" 2 = "N/A" := by
  obtain ⟨tr, wr, nt, ec, sm, tk, sd, ed⟩ := r
  obtain ⟨sr, md, ar, vo, tt, wt, lt, ad, cw, cl⟩ := sm
  rfl

/-- The x-axis labels of the equity chart (`EquityChart.tsx`, lines
51-57): one label per equity-curve point, in order — index i carries the
(locale-formatted) date of point i. The locale formatting is a
per-element relabeling and is modelled by the date string itself. -/
def chartLabels (curve : List EquityPoint) : List String :=
  curve.map (fun p => p.date)

/-- The SMA dataset of the equity chart (`EquityChart.tsx`, lines
147-149): map every point to its `sma` and drop the null/undefined
entries, keeping the defined values in order. The chart then plots entry
k of this compacted list against label k. -/
def smaDataset (curve : List EquityPoint) : List ℚ :=
  (curve.map (fun p => p.sma)).reduceOption

/-- Dropping the `none` entries of an all-`none` list leaves nothing. -/
theorem reduceOption_eq_nil_of_all_none {α : Type} (l : List (Option α))
    (h : ∀ o ∈ l, o = none) : l.reduceOption = [] := by
  induction l with
  | nil => rfl
  | cons hd tl ih =>
      have hh : hd = none := h hd (List.mem_cons_self hd tl)
      subst hh
      simp only [List.reduceOption_cons_of_none]
      exact ih fun o ho => h o (List.mem_cons_of_mem none ho)

/-- On a list whose entries are all defined, dropping the `none` entries
is the identity up to unwrapping: entry k of the compacted list is the
value inside entry k of the original. -/
theorem reduceOption_get?_of_all_isSome {α : Type} (l : List (Option α))
    (h : ∀ o ∈ l, o.isSome = true) (k : ℕ) :
    l.reduceOption[k]? = l[k]?.join := by
  induction l generalizing k with
  | nil => simp
  | cons hd tl ih =>
      match hd, h hd (List.mem_cons_self hd tl) with
      | some a, _ =>
        have htl : ∀ o ∈ tl, o.isSome = true :=
          fun o ho => h o (List.mem_cons_of_mem (some a) ho)
        cases k with
        | zero => simp
        | succ k => simpa using ih htl k

/-- Claim C9: when the first w points of the equity curve have undefined
`sma` and every later point has it defined, the chart's SMA dataset has
one entry per defined value and its entry k is the SMA belonging to day
w + k, while label k is the date of day k — every SMA value is drawn w
positions earlier than the day it belongs to. -/
theorem sma_dataset_shifted (curve : List EquityPoint) (w : ℕ)
    (_hw : w ≤ curve.length)
    (h1 : ∀ i < w, (curve[i]?.bind fun p => p.sma) = none)
    (h2 : ∀ i < curve.length, w ≤ i → (curve[i]?.bind fun p => p.sma).isSome = true) :
    (smaDataset curve).length = curve.length - w ∧
    (∀ k : ℕ, (smaDataset curve)[k]? = curve[w + k]?.bind fun p => p.sma) ∧
    (∀ k : ℕ, (chartLabels curve)[k]? = curve[k]?.map fun p => p.date) := by
  have hsplit : curve.map (fun p => p.sma) =
      (curve.take w).map (fun p => p.sma) ++ (curve.drop w).map (fun p => p.sma) := by
    rw [← List.map_append, List.take_append_drop]
  have htake : ∀ o ∈ (curve.take w).map (fun p => p.sma), o = none := by
    intro o ho
    obtain ⟨p, hp, hpo⟩ := List.mem_map.mp ho
    obtain ⟨n, hn⟩ := List.mem_iff_getElem?.mp hp
    have hnw : n < w := by
      by_contra hnot
      rw [List.getElem?_take_eq_none (Nat.le_of_not_lt hnot)] at hn
      exact Option.noConfusion hn
    rw [List.getElem?_take_of_lt hnw] at hn
    have hnone := h1 n hnw
    rw [hn] at hnone
    simpa [hpo] using hnone
  have hdrop : ∀ o ∈ (curve.drop w).map (fun p => p.sma), o.isSome = true := by
    intro o ho
    obtain ⟨p, hp, hpo⟩ := List.mem_map.mp ho
    obtain ⟨n, hn⟩ := List.mem_iff_getElem?.mp hp
    rw [List.getElem?_drop] at hn
    have hlen : w + n < curve.length := by
      by_contra hnot
      rw [List.getElem?_eq_none (Nat.le_of_not_lt hnot)] at hn
      exact Option.noConfusion hn
    have hsome := h2 (w + n) hlen (Nat.le_add_right w n)
    rw [hn] at hsome
    simpa [hpo] using hsome
  have hred : smaDataset curve = ((curve.drop w).map (fun p => p.sma)).reduceOption := by
    rw [smaDataset, hsplit, List.reduceOption_append,
      reduceOption_eq_nil_of_all_none _ htake, List.nil_append]
  refine ⟨?_, ?_, ?_⟩
  · rw [hred]
    have hlen : ∀ (l : List (Option ℚ)), (∀ o ∈ l, o.isSome = true) →
        l.reduceOption.length = l.length := by
      intro l hl
      induction l with
      | nil => rfl
      | cons hd tl ih =>
          match hd, hl hd (List.mem_cons_self hd tl) with
          | some a, _ =>
            have htl : ∀ o ∈ tl, o.isSome = true :=
              fun o ho => hl o (List.mem_cons_of_mem (some a) ho)
            simpa using ih htl
    rw [hlen _ hdrop, List.length_map, List.length_drop]
  · intro k
    rw [hred, reduceOption_get?_of_all_isSome _ hdrop k, List.getElem?_map,
      List.getElem?_drop]
    cases curve[w + k]? with
    | none => rfl
    | some p => rfl
  · intro k
    simp [chartLabels]

/-- A concrete three-day equity curve whose first point has undefined
`sma` and whose later points have it defined. -/
def sampleCurve : List EquityPoint :=
  [⟨"2023-01-03", 10000, 10000, 0, 100, none⟩,
   ⟨"2023-01-04", 10000, 10000, 0, 101, some 100⟩,
   ⟨"2023-01-05", 10000, 10000, 0, 102, some (201 / 2)⟩]

/-- Witness for claim C9 at the concrete curve `sampleCurve` with a
one-day warm-up. -/
theorem sma_dataset_shifted_witness :
    (1 ≤ sampleCurve.length) ∧
    (∀ i < 1, (sampleCurve[i]?.bind fun p => p.sma) = none) ∧
    (∀ i < sampleCurve.length, 1 ≤ i →
      (sampleCurve[i]?.bind fun p => p.sma).isSome = true) ∧
    ((smaDataset sampleCurve).length = sampleCurve.length - 1 ∧
     (∀ k : ℕ, (smaDataset sampleCurve)[k]? = sampleCurve[1 + k]?.bind fun p => p.sma) ∧
     (∀ k : ℕ, (chartLabels sampleCurve)[k]? = sampleCurve[k]?.map fun p => p.date)) :=
  ⟨by decide, by decide, by decide,
   sma_dataset_shifted sampleCurve 1 (by decide) (by decide) (by decide)⟩

/-- The error object reaching a catch block of `ApiService` (`api.ts`):
whether `axios.isAxiosError` holds of it, the optional
`error.response.data.detail` payload, and `error.message`. -/
structure AxiosFailure where
  isAxiosError : Bool
  detail : Option String
  message : String

/-- Outcome of an underlying HTTP request: either the parsed response
data or the error object the catch block receives. -/
inductive HttpOutcome (α : Type) where
  | success (data : α)
  | failure (err : AxiosFailure)

/-- A stored backtest run as returned by the backend listing endpoints
(`api.ts`, lines 81-94). -/
structure BacktestRun where
  id : ℤ
  ticker : String
  start_date : String
  end_date : String
  sma_period : ℤ
  rule_condition : String
  rule_then_action : String
  rule_else_action : String
  total_return : ℚ
  win_rate : ℚ
  num_trades : ℚ
  created_at : String

/-- `ApiService.getAvailableTickers` (`api.ts`, lines 120-128): return
the response data on success and the empty list on any failure (the error
is logged and swallowed). -/
def ApiService.getAvailableTickers : HttpOutcome (List String) → List String
  | HttpOutcome.success d => d
  | HttpOutcome.failure _ => []

/-- `ApiService.getBacktestRuns` (`api.ts`, lines 130-138): return the
response data on success and the empty list on any failure (the error is
logged and swallowed). -/
def ApiService.getBacktestRuns : HttpOutcome (List BacktestRun) → List BacktestRun
  | HttpOutcome.success d => d
  | HttpOutcome.failure _ => []

/-- `ApiService.runBacktest` (`api.ts`, lines 105-118): return the
response data on success; on failure rethrow the server's
`response.data.detail` when the error is an axios error carrying one,
else the axios error's own message, else a generic message. -/
def ApiService.runBacktest : HttpOutcome BacktestResponse → Except String BacktestResponse
  | HttpOutcome.success d => Except.ok d
  | HttpOutcome.failure e =>
      if e.isAxiosError then
        match e.detail with
        | some d => Except.error d
        | none => Except.error e.message
      else Except.error "An unexpected error occurred"

/-- Claim C10: for every failure of the underlying request,
`getAvailableTickers` and `getBacktestRuns` return the empty list —
indistinguishable from a successful empty result — while `runBacktest`
rethrows the server's detail message when the axios error carries one. -/
theorem api_error_swallowing (e : AxiosFailure) (d : String) :
    ApiService.getAvailableTickers (HttpOutcome.failure e) = [] ∧
    ApiService.getAvailableTickers (HttpOutcome.failure e) =
      ApiService.getAvailableTickers (HttpOutcome.success []) ∧
    ApiService.getBacktestRuns (HttpOutcome.failure e) = [] ∧
    ApiService.getBacktestRuns (HttpOutcome.failure e) =
      ApiService.getBacktestRuns (HttpOutcome.success []) ∧
    (e.isAxiosError = true → e.detail = some d →
      ApiService.runBacktest (HttpOutcome.failure e) = Except.error d) := by
  refine ⟨rfl, rfl, rfl, rfl, fun hax hd => ?_⟩
  simp [ApiService.runBacktest, hax, hd]

/-- A concrete axios failure carrying a server detail message. -/
def sampleFailure : AxiosFailure :=
  ⟨true, some "No data found for ticker", "Request failed with status code 400"⟩

/-- Witness for claim C10 at the concrete failure `sampleFailure`. -/
theorem api_error_swallowing_witness :
    ApiService.getAvailableTickers (HttpOutcome.failure sampleFailure) = [] ∧
    ApiService.getBacktestRuns (HttpOutcome.failure sampleFailure) = [] ∧
    ApiService.runBacktest (HttpOutcome.failure sampleFailure) =
      Except.error "No data found for ticker" :=
  ⟨(api_error_swallowing sampleFailure "No data found for ticker").1,
   (api_error_swallowing sampleFailure "No data found for ticker").2.2.1,
   (api_error_swallowing sampleFailure "No data found for ticker").2.2.2.2 rfl rfl⟩

namespace Backtest

/-- Modelled from the spec: the actions of a Rule (spec section 3); the
backend that interprets them is not among the repository sources. -/
inductive Action where
  | buy
  | sell
  | hold
  | exit

/-- Modelled from the spec: the conditions of a Rule (spec section 3). -/
inductive Condition where
  | priceGtSma
  | priceLtSma
  | priceGeSma
  | priceLeSma
  | volumeGtAvg

/-- Modelled from the spec: a Rule (spec section 3) — one condition, one
then-action, one else-action, immutable once a run starts. -/
structure Rule where
  if_condition : Condition
  then_action : Action
  else_action : Action

/-- Modelled from the spec: SimulationConfig (spec section 3). -/
structure SimulationConfig where
  ticker : String
  initial_capital : ℚ
  sma_period : ℕ
  rule : Rule

/-- Modelled from the spec: a PricePoint (spec section 3). The calendar
date is a serial day number (unique, strictly increasing across the
series); the `open` field is spelled `open_` because `open` is a Lean
keyword. -/
structure PricePoint where
  date : ℕ
  open_ : ℚ
  high : ℚ
  low : ℚ
  close : ℚ
  volume : ℕ

/-- Modelled from the spec: the direction of a Trade (spec section 3). -/
inductive Direction where
  | long
  | short

/-- Modelled from the spec: a Trade (spec section 3), created when an
open position is closed. -/
structure Trade where
  entry_date : ℕ
  exit_date : ℕ
  entry_price : ℚ
  exit_price : ℚ
  direction : Direction
  pnl : ℚ

/-- Modelled from the spec: an AccountState (spec section 3), one per
trading day, with signed `position_size` and the optional warm-up
indicators. -/
structure AccountState where
  date : ℕ
  cash : ℚ
  position_size : ℚ
  equity : ℚ
  close_price : ℚ
  sma : Option ℚ
  average_volume : Option ℚ

/-- Modelled from the spec: the error taxonomy of section 7 —
`ValidationError` for malformed requests, `NoDataError` for zero bars
from the provider, `InsufficientDataError` for fewer bars than
`sma_period`; the three are distinct so callers can tell them apart. -/
inductive SimError where
  | ValidationError
  | NoDataError
  | InsufficientDataError

/-- The currently open position of the simulator: entry day, entry price
and signed size (positive long, negative short). -/
structure OpenPosition where
  entry_date : ℕ
  entry_price : ℚ
  size : ℚ

/-- The running state of the single forward pass: cash, the open
position if any, and the accumulated day snapshots and realized trades
(both most-recent-first, reversed at the end). -/
structure SimState where
  cash : ℚ
  pos : Option OpenPosition
  states : List AccountState
  trades : List Trade

/-- Modelled from the spec: the trailing indicator of section 4.1 — the
mean of the last `period` values of the prior days only (the list is
most-recent-first and excludes the current day); undefined until the
window holds `period` points. -/
def trailingMean (period : ℕ) (prior : List ℚ) : Option ℚ :=
  if prior.length < period then none
  else some ((prior.take period).sum / (period : ℚ))

/-- Modelled from the spec: rule-condition evaluation (section 4.1, step
2b) — compare close against SMA or volume against average volume; an
undefined indicator makes the condition evaluate false. -/
def evalCondition (c : Condition) (close : ℚ) (volume : ℕ)
    (sma avgVol : Option ℚ) : Bool :=
  match c with
  | Condition.priceGtSma =>
      match sma with
      | some s => decide (close > s)
      | none => false
  | Condition.priceLtSma =>
      match sma with
      | some s => decide (close < s)
      | none => false
  | Condition.priceGeSma =>
      match sma with
      | some s => decide (close ≥ s)
      | none => false
  | Condition.priceLeSma =>
      match sma with
      | some s => decide (close ≤ s)
      | none => false
  | Condition.volumeGtAvg =>
      match avgVol with
      | some a => decide ((volume : ℚ) > a)
      | none => false

/-- Modelled from the spec: closing an open position at the day's close
(section 4.1, step 2d) — proceeds return to cash, a Trade is recorded
with signed-size profit and loss; a no-op when flat. -/
def closeAt (day : ℕ) (price : ℚ) (st : SimState) : SimState :=
  match st.pos with
  | none => st
  | some op =>
      let tr : Trade :=
        ⟨op.entry_date, day, op.entry_price, price,
         if op.size > 0 then Direction.long else Direction.short,
         op.size * (price - op.entry_price)⟩
      ⟨st.cash + op.size * price, none, st.states, tr :: st.trades⟩

/-- Modelled from the spec: opening a position at the day's close
(section 4.1, step 2d) — all available cash is spent at the close price
(fractional shares permitted), long positive, short negative; entering a
position preserves equity at the transaction price. -/
def openAt (day : ℕ) (price : ℚ) (long : Bool) (st : SimState) : SimState :=
  let size := if long then st.cash / price else -(st.cash / price)
  ⟨st.cash - size * price, some ⟨day, price, size⟩, st.states, st.trades⟩

/-- Modelled from the spec: applying the selected action to the current
position (section 4.1, step 2d) — buy opens or flips to long (no-op when
already long), sell symmetrically opens or flips to short, hold changes
nothing, exit closes any open position. -/
def applyAction (a : Action) (day : ℕ) (price : ℚ) (st : SimState) : SimState :=
  match a with
  | Action.hold => st
  | Action.exit => closeAt day price st
  | Action.buy =>
      match st.pos with
      | none => openAt day price true st
      | some op =>
          if op.size > 0 then st
          else openAt day price true (closeAt day price st)
  | Action.sell =>
      match st.pos with
      | none => openAt day price false st
      | some op =>
          if op.size < 0 then st
          else openAt day price false (closeAt day price st)

/-- Modelled from the spec: one day of the single forward pass (section
4.1, step 2) — compute the trailing indicators from prior days only,
evaluate the condition (false when undefined), pick then/else action,
apply it, and append the day's snapshot with post-action cash/position
marked at the day's close. -/
def simulateStep (cfg : SimulationConfig) (p : PricePoint)
    (priorCloses priorVols : List ℚ) (st : SimState) : SimState :=
  let sma := trailingMean cfg.sma_period priorCloses
  let avgVol := trailingMean cfg.sma_period priorVols
  let cond := evalCondition cfg.rule.if_condition p.close p.volume sma avgVol
  let act := if cond then cfg.rule.then_action else cfg.rule.else_action
  let st2 := applyAction act p.date p.close st
  let psize :=
    match st2.pos with
    | some op => op.size
    | none => 0
  let snap : AccountState :=
    ⟨p.date, st2.cash, psize, st2.cash + psize * p.close, p.close, sma, avgVol⟩
  ⟨st2.cash, st2.pos, snap :: st2.states, st2.trades⟩

/-- Modelled from the spec: the forward pass over the whole series
(section 4.1), carrying the prior closes and volumes most-recent-first. -/
def simulateLoop (cfg : SimulationConfig) :
    List PricePoint → List ℚ → List ℚ → SimState → SimState
  | [], _, _, st => st
  | p :: rest, pc, pv, st =>
      simulateLoop cfg rest (p.close :: pc) ((p.volume : ℚ) :: pv)
        (simulateStep cfg p pc pv st)

/-- Modelled from the spec: `simulate` (section 4.1) — fails with
`InsufficientDataError` when the series holds fewer bars than
`sma_period` (the error policy the contract names first); otherwise a
single forward pass produces the day snapshots and realized trades in
chronological order. An open position at series end is not auto-closed. -/
def simulate (prices : List PricePoint) (cfg : SimulationConfig) :
    Except SimError (List AccountState × List Trade) :=
  if prices.length < cfg.sma_period then
    Except.error SimError.InsufficientDataError
  else
    let final := simulateLoop cfg prices [] [] ⟨cfg.initial_capital, none, [], []⟩
    Except.ok (final.states.reverse, final.trades.reverse)

/-- Claim C5: `simulate` fails with `InsufficientDataError` whenever the
price series has fewer elements than `sma_period`, and that error is a
value distinct from `NoDataError`. -/
theorem simulate_insufficient_data :
    (∀ (prices : List PricePoint) (cfg : SimulationConfig),
      prices.length < cfg.sma_period →
      simulate prices cfg = Except.error SimError.InsufficientDataError) ∧
    SimError.InsufficientDataError ≠ SimError.NoDataError := by
  constructor
  · intro prices cfg h
    simp [simulate, h]
  · intro h
    exact SimError.noConfusion h

/-- A concrete two-bar price series. -/
def samplePrices2 : List PricePoint :=
  [⟨0, 100, 101, 99, 100, 1000⟩, ⟨1, 100, 102, 99, 101, 1100⟩]

/-- A concrete configuration with a ten-day SMA window. -/
def sampleConfig10 : SimulationConfig :=
  ⟨"AAPL", 10000, 10, ⟨Condition.priceGtSma, Action.buy, Action.hold⟩⟩

/-- Witness for claim C5: a series of length 2 with `sma_period = 10`
yields `InsufficientDataError`. -/
theorem simulate_insufficient_data_witness :
    samplePrices2.length < sampleConfig10.sma_period ∧
    simulate samplePrices2 sampleConfig10 =
      Except.error SimError.InsufficientDataError :=
  ⟨by decide, simulate_insufficient_data.1 samplePrices2 sampleConfig10 (by decide)⟩

end Backtest

namespace Backtest

/-- Modelled from the spec: SummaryMetrics (spec section 3), with the
field names the specification gives them. Real-valued where the formulas
of section 4.2 involve square roots or real exponents. -/
structure SummaryMetrics where
  total_return_pct : ℝ
  win_rate_pct : ℝ
  sharpe_ratio : ℝ
  max_drawdown_pct : ℝ
  annual_return_pct : ℝ
  volatility_pct : ℝ
  total_trades : ℕ
  winning_trades : ℕ
  losing_trades : ℕ
  avg_trade_duration_days : ℝ
  max_consecutive_wins : ℕ
  max_consecutive_losses : ℕ

/-- Modelled from the spec: `summarize` (section 4.2) — a pure function
of the account states, trades and initial capital. An empty state
sequence yields all-zero metrics; daily returns skip days whose previous
equity is zero; the standard deviation is the population deviation of the
daily returns; Sharpe and volatility fall back to zero when the deviation
is zero or undefined; the annual return compounds over elapsed calendar
days (equal to the total return when no days elapsed); drawdown is
measured against the running equity peak; ties (pnl = 0) count as losing
trades. -/
noncomputable def summarize (states : List AccountState) (trades : List Trade)
    (initial_capital : ℚ) : SummaryMetrics :=
  match states with
  | [] => ⟨0, 0, 0, 0, 0, 0, 0, 0, 0, 0, 0, 0⟩
  | s0 :: _ =>
      let sN := states.getLastD s0
      let equities := states.map (fun s => s.equity)
      let total_return_pct : ℚ :=
        if initial_capital = 0 then 0
        else (sN.equity - initial_capital) / initial_capital * 100
      let rets : List ℚ :=
        (equities.zip equities.tail).filterMap
          (fun pr => if pr.1 = 0 then none else some (pr.2 / pr.1 - 1))
      let n : ℕ := rets.length
      let meanR : ℚ := if n = 0 then 0 else rets.sum / (n : ℚ)
      let varR : ℚ :=
        if n = 0 then 0
        else ((rets.map (fun r => (r - meanR) ^ 2)).sum) / (n : ℚ)
      let stdev : ℝ := Real.sqrt (varR : ℝ)
      let volatility_pct : ℝ := stdev * Real.sqrt 252 * 100
      let sharpe_ratio : ℝ :=
        if stdev = 0 then 0 else (meanR : ℝ) / stdev * Real.sqrt 252
      let days_elapsed : ℕ := sN.date - s0.date
      let annual_return_pct : ℝ :=
        if days_elapsed = 0 then (total_return_pct : ℝ)
        else ((1 + (total_return_pct : ℝ) / 100) ^
          ((365 : ℝ) / (days_elapsed : ℝ)) - 1) * 100
      let max_drawdown_pct : ℚ :=
        (equities.foldl
          (fun acc e =>
            let peak := max acc.1 e
            let dd := if peak = 0 then 0 else (peak - e) / peak * 100
            (peak, max acc.2 dd))
          ((s0.equity, 0) : ℚ × ℚ)).2
      let total_trades : ℕ := trades.length
      let winning_trades : ℕ := (trades.filter (fun t => decide (0 < t.pnl))).length
      let losing_trades : ℕ := (trades.filter (fun t => decide (t.pnl ≤ 0))).length
      let win_rate_pct : ℚ :=
        if total_trades = 0 then 0
        else (winning_trades : ℚ) / (total_trades : ℚ) * 100
      let avg_trade_duration_days : ℚ :=
        if total_trades = 0 then 0
        else ((trades.map (fun t => (t.exit_date : ℚ) - (t.entry_date : ℚ))).sum) /
          (total_trades : ℚ)
      let max_consecutive_wins : ℕ :=
        (trades.foldl
          (fun acc t =>
            let cur := if 0 < t.pnl then acc.1 + 1 else 0
            (cur, max acc.2 cur))
          ((0, 0) : ℕ × ℕ)).2
      let max_consecutive_losses : ℕ :=
        (trades.foldl
          (fun acc t =>
            let cur := if t.pnl ≤ 0 then acc.1 + 1 else 0
            (cur, max acc.2 cur))
          ((0, 0) : ℕ × ℕ)).2
      ⟨(total_return_pct : ℝ), (win_rate_pct : ℝ), sharpe_ratio,
       (max_drawdown_pct : ℝ), annual_return_pct, volatility_pct,
       total_trades, winning_trades, losing_trades,
       (avg_trade_duration_days : ℝ), max_consecutive_wins,
       max_consecutive_losses⟩

/-- Modelled from the spec: the whole core in sequence (section 2) — the
simulator's trajectory and trade list fed to the metrics calculator, with
no feedback and no retry. -/
noncomputable def runBacktestCore (prices : List PricePoint)
    (cfg : SimulationConfig) :
    Except SimError (List AccountState × List Trade × SummaryMetrics) :=
  match simulate prices cfg with
  | Except.error e => Except.error e
  | Except.ok (states, trades) =>
      Except.ok (states, trades, summarize states trades cfg.initial_capital)

/-- Claim C6: for valid inputs the core is deterministic — running
`simulate` followed by `summarize` twice on the same inputs yields
identical outputs, and re-invoking on inputs equal to the originals
reproduces the identical output. The embedding is a pure function of
(prices, config): there is no hidden state, randomness or retry. -/
theorem core_deterministic (prices prices2 : List PricePoint)
    (cfg cfg2 : SimulationConfig)
    (hvalid : 0 < cfg.initial_capital ∧ 1 ≤ cfg.sma_period)
    (hp : prices2 = prices) (hc : cfg2 = cfg) :
    runBacktestCore prices cfg = runBacktestCore prices cfg ∧
    runBacktestCore prices2 cfg2 = runBacktestCore prices cfg := by
  subst hp
  subst hc
  exact ⟨rfl, rfl⟩

/-- The eight-day price series of the spec's section 8 scenario. -/
def samplePrices8 : List PricePoint :=
  [⟨0, 100, 100, 100, 100, 1000⟩, ⟨1, 102, 102, 102, 102, 1000⟩,
   ⟨2, 104, 104, 104, 104, 1000⟩, ⟨3, 103, 103, 103, 103, 1000⟩,
   ⟨4, 105, 105, 105, 105, 1000⟩, ⟨5, 108, 108, 108, 108, 1000⟩,
   ⟨6, 107, 107, 107, 107, 1000⟩, ⟨7, 110, 110, 110, 110, 1000⟩]

/-- The configuration of the spec's section 8 scenario: three-day SMA,
buy when price exceeds it, else hold, 10000 initial capital. -/
def sampleConfig3 : SimulationConfig :=
  ⟨"AAPL", 10000, 3, ⟨Condition.priceGtSma, Action.buy, Action.hold⟩⟩

/-- Witness for claim C6 at the concrete scenario inputs. -/
theorem core_deterministic_witness :
    (0 < sampleConfig3.initial_capital ∧ 1 ≤ sampleConfig3.sma_period) ∧
    runBacktestCore samplePrices8 sampleConfig3 =
      runBacktestCore samplePrices8 sampleConfig3 :=
  ⟨⟨by decide, by decide⟩,
   (core_deterministic samplePrices8 samplePrices8 sampleConfig3 sampleConfig3
      ⟨by decide, by decide⟩ rfl rfl).1⟩

end Backtest
